import Mathlib

/-!
Shallow embedding of the netmiko-monitoring-suite repository
(device discovery, health checking, suite runner and shared utilities),
with theorems checking the natural-language specification against it.

Python data is modelled as follows: machine-independent integers are `Nat`
or `Int`; floating Python values that only flow through untouched
(response times, durations, retry delays) are `ℚ`; Python `str` is `String`
with character-level helper functions defined structurally so that they
evaluate; Python `dict` is an insertion-ordered association list with
last-write-wins assignment (`pyDictSet`); `None` is `Option.none`;
exceptions are `Except`/`Option` results.  Network, clock and filesystem
effects are supplied by explicit oracle/environment records.
-/

namespace Netmon

/-! ## Python-style string and dict helpers -/

/-- Python truthiness of an optional string: `None` and `""` are falsy. -/
def pyTruthy : Option String → Bool
  | none => false
  | some s => s ≠ ""

/-- Python `a or b` on optional strings: `a` if truthy, else `b`. -/
def pyOr (a b : Option String) : Option String :=
  if pyTruthy a then a else b

/-- Does the character list `s` start with `pat`? -/
def listStartsWith : List Char → List Char → Bool
  | _, [] => true
  | [], _ :: _ => false
  | a :: as, b :: bs => a == b && listStartsWith as bs

/-- Python `pat in s` on character lists (contiguous substring search). -/
def containsSub : List Char → List Char → Bool
  | [], pat => pat == []
  | c :: cs, pat => listStartsWith (c :: cs) pat || containsSub cs pat

/-- Python `pat in s` for strings. -/
def strIn (pat s : String) : Bool :=
  containsSub s.data pat.data

/-- Python `s.startswith(pat)`. -/
def strStarts (s pat : String) : Bool :=
  listStartsWith s.data pat.data

/-- Python `s.endswith(pat)`. -/
def strEnds (s pat : String) : Bool :=
  listStartsWith s.data.reverse pat.data.reverse

/-- Python `s.lower()` (ASCII case fold, sufficient for the CLI text involved). -/
def pyLower (s : String) : String :=
  String.mk (s.data.map Char.toLower)

/-- Python `s.strip()` (whitespace at both ends). -/
def trimChars (cs : List Char) : List Char :=
  ((cs.dropWhile Char.isWhitespace).reverse.dropWhile Char.isWhitespace).reverse

/-- Python `s.strip()` for strings. -/
def pyStrip (s : String) : String :=
  String.mk (trimChars s.data)

/-- Python `s.strip(':')`. -/
def stripColons (s : String) : String :=
  String.mk (((s.data.dropWhile (· == ':')).reverse.dropWhile (· == ':')).reverse)

/-- Python `s.split(c)` for a single separator character. -/
def strSplitChar (s : String) (c : Char) : List String :=
  (s.data.splitOn c).map String.mk

/-- Python `c in s` for a single character. -/
def strHasChar (s : String) (c : Char) : Bool :=
  s.data.any (· == c)

/-- Python `s.split()` — split on whitespace runs, discarding empty pieces. -/
def pySplitWs (s : String) : List String :=
  ((s.data.splitOnP Char.isWhitespace).filter (· ≠ [])).map String.mk

/-- Characters of `s` before the first occurrence of `pat` (all of `s` if absent). -/
def takeBeforeSub : List Char → List Char → List Char
  | [], _ => []
  | c :: cs, pat => if listStartsWith (c :: cs) pat then [] else c :: takeBeforeSub cs pat

/-- Python `s.split(pat)[0]` for a non-empty separator string. -/
def strBefore (s pat : String) : String :=
  String.mk (takeBeforeSub s.data pat.data)

/-- Digit-string parse (used for Python `int(str)` on the numeric text involved). -/
def digitsToNat? (cs : List Char) : Option Nat :=
  if cs ≠ [] ∧ cs.all Char.isDigit then
    some (cs.foldl (fun a c => a * 10 + (c.toNat - 48)) 0)
  else none

/-- Python `int(s)` for the non-negative decimal strings this code feeds it. -/
def pyToNat (s : String) : Option Nat :=
  digitsToNat? (trimChars s.data)

/-- Python dict assignment `d[k] = v`: replace in place if the key exists,
else append (insertion order preserved, as in CPython dicts). -/
def pyDictSet [BEq K] (d : List (K × V)) (k : K) (v : V) : List (K × V) :=
  if d.any (·.1 == k) then d.map (fun kv => if kv.1 == k then (k, v) else kv)
  else d ++ [(k, v)]

/-- Python `d.get(k)` / `d[k]` lookup. -/
def pyDictGet [BEq K] (d : List (K × V)) (k : K) : Option V :=
  (d.find? (·.1 == k)).map (·.2)

/-- Python `{**a, **b}`: entries of `b` assigned over `a`, new keys appended. -/
def pyDictMerge [BEq K] (a b : List (K × V)) : List (K × V) :=
  b.foldl (fun acc kv => pyDictSet acc kv.1 kv.2) a

/-! ## Health model (src/scripts/health_check.py)

The `HealthStatus` / `HealthMetric` / `DeviceHealth` declarations sit in the
part of `health_check.py` whose text is not in the available sources; they
are modelled from the spec's data model (§3), with exactly the fields the
available code reads and writes.  The aggregation algorithm below is the
source's `calculate_overall_status`. -/

/-- Modelled from the spec: the four-valued health status enumeration
(GOOD/WARNING/CRITICAL plus the UNKNOWN default). -/
inductive HealthStatus where
  | good
  | warning
  | critical
  | unknown
deriving DecidableEq, Repr

/-- A metric value is numeric or text (Python `Union[float, str]`). -/
inductive MetricValue where
  | num (q : ℚ)
  | text (s : String)
deriving DecidableEq, Repr

/-- Modelled from the spec: one health metric (name, value, unit, status,
optional message). -/
structure HealthMetric where
  name : String
  value : MetricValue
  unit : String
  status : HealthStatus := .unknown
  message : Option String := none
deriving DecidableEq, Repr

/-- Modelled from the spec: per-device health record; exactly the fields the
available health-check code touches. -/
structure DeviceHealth where
  device_ip : String
  hostname : String := ""
  vendor : String := ""
  model : String := ""
  reachable : Bool := false
  cpu_utilization : Option HealthMetric := none
  memory_usage : Option HealthMetric := none
  flash_usage : Option HealthMetric := none
  uptime : Option HealthMetric := none
  temperature_sensors : List HealthMetric := []
  power_supplies : List HealthMetric := []
  fans : List HealthMetric := []
  interface_errors : List HealthMetric := []
  interface_utilization : List HealthMetric := []
  overall_status : HealthStatus := .unknown
  errors : List String := []
  last_check : String := ""
  check_duration : ℚ := 0
deriving DecidableEq, Repr

/-- The metric list assembled by `calculate_overall_status` (in its order):
optional cpu and memory metrics, then the temperature, power-supply, fan,
interface-error and interface-utilization lists. -/
def DeviceHealth.allMetrics (h : DeviceHealth) : List HealthMetric :=
  h.cpu_utilization.toList ++ h.memory_usage.toList ++
    h.temperature_sensors ++ h.power_supplies ++ h.fans ++
    h.interface_errors ++ h.interface_utilization

/-- `HealthChecker.calculate_overall_status` (health_check.py lines 213-252). -/
def calculate_overall_status (health : DeviceHealth) : HealthStatus :=
  if health.reachable = false then .critical
  else
    let all_metrics := health.allMetrics
    let critical_count := all_metrics.countP (fun m => m.status == .critical)
    let warning_count := all_metrics.countP (fun m => m.status == .warning)
    let total_metrics := all_metrics.length
    if total_metrics = 0 then .unknown
    else if critical_count > 0 then .critical
    else if warning_count > 0 then .warning
    else .good

/-! ## Uptime formatting (src/scripts/device_discovery.py lines 263-275) -/

/-- `DeviceDiscovery.format_uptime`: SNMP centisecond ticks to `"<d>d <h>h <m>m"`. -/
def format_uptime (ticks : Nat) : String :=
  let seconds := ticks / 100
  let days := seconds / 86400
  let hours := (seconds % 86400) / 3600
  let minutes := (seconds % 3600) / 60
  if days > 0 then
    Nat.repr days ++ "d " ++ Nat.repr hours ++ "h " ++ Nat.repr minutes ++ "m"
  else if hours > 0 then Nat.repr hours ++ "h " ++ Nat.repr minutes ++ "m"
  else Nat.repr minutes ++ "m"

/-! ## Configuration loading (src/utils/common.py lines 287-308) -/

/-- Error kinds raised by `load_config`: `FileNotFoundError` (NotFound) and
`ValueError` (InvalidInput). -/
inductive ConfigErr where
  | notFound (msg : String)
  | invalidFormat (msg : String)
deriving DecidableEq, Repr

/-- Result of the YAML/JSON library parse, kept at the trust boundary. -/
inductive ConfigVal where
  | yamlOf (content : String)
  | jsonOf (content : String)
deriving DecidableEq, Repr

/-- A filesystem: maps a path to its content when the file exists. -/
def FileSys := String → Option String

/-- Last path component (what `pathlib.Path(p).name` yields for these paths). -/
def lastComponent (p : String) : String :=
  (((strSplitChar p '/').filter (· ≠ "")).getLastD "")

/-- `pathlib.Path(p).suffix`: text from the last dot of the final component,
empty when the dot is leading, trailing or absent. -/
def pySuffix (p : String) : String :=
  let cs := (lastComponent p).data
  match (cs.enum.filterMap (fun ic => if ic.2 = '.' then some ic.1 else none)).getLast? with
  | none => ""
  | some i => if 0 < i ∧ i + 1 < cs.length then String.mk (cs.drop i) else ""

/-- `load_config` (common.py lines 287-308): existence check first, then the
extension dispatch; the YAML/JSON parsing itself is the library boundary. -/
def load_config (fs : FileSys) (config_file : String) : Except ConfigErr ConfigVal :=
  match fs config_file with
  | none => .error (.notFound ("Configuration file not found: " ++ config_file))
  | some content =>
    let suf := pySuffix config_file
    if suf = ".yaml" ∨ suf = ".yml" then .ok (.yamlOf content)
    else if suf = ".json" then .ok (.jsonOf content)
    else .error (.invalidFormat ("Unsupported configuration file format: " ++ suf))

/-! ## Suite runner (src/run_monitoring.py) -/

/-- How a tool's entry function ends: normal return, `SystemExit` with an
optional code, or an uncaught exception. -/
inductive ToolOutcome where
  | normal
  | exits (code : Option Int)
  | raises (msg : String)
deriving DecidableEq, Repr

/-- Runner-internal status classification. -/
inductive RunStatus where
  | success
  | warning
  | error
  | unknown
deriving DecidableEq, Repr

/-- One entry of the runner's per-tool result set. -/
structure ScriptResult where
  name : String
  status : RunStatus
  exit_code : Int
  error : Option String
deriving DecidableEq, Repr

/-- `MonitoringSuite.run_script` (run_monitoring.py lines 73-117): outcome
classification and recorded exit code / error message. -/
def run_script (name : String) (outcome : ToolOutcome) : ScriptResult :=
  match outcome with
  | .normal => ⟨name, .success, 0, none⟩
  | .exits c =>
    ⟨name,
      if c = some 0 ∨ c = none then .success
      else if c = some 1 then .warning
      else .error,
      c.getD 0, none⟩
  | .raises m => ⟨name, .error, 1, some m⟩

/-- The suite's process exit code (run_monitoring.py lines 362-378):
2 if any tool errored, else 1 if any warned, else 0. -/
def suite_exit_code (results : List ScriptResult) : Nat :=
  let error_count := results.countP (fun r => r.status == .error)
  let warning_count := results.countP (fun r => r.status == .warning)
  if error_count > 0 then 2
  else if warning_count > 0 then 1
  else 0

/-! ## Retry wrapper (src/utils/common.py lines 58-90)

The wrapped operation is modelled as a function from the attempt number
(1-based) to what that attempt does: succeed, or fail with a retryable or a
non-retryable exception.  The wrapper's observable behaviour is its result
together with the sequence of sleeps it performed. -/

/-- What one attempt of the wrapped operation does. -/
inductive AttemptResult (α ε : Type) where
  | ok (v : α)
  | fail (retryable : Bool) (e : ε)
deriving DecidableEq, Repr

/-- Observable behaviour of a retried call: the value returned or the
exception propagated, with the sleeps performed in between; `noneResult`
is the `return None` after a loop that never ran (`max_attempts = 0`). -/
inductive RetryResult (α ε : Type) where
  | ok (v : α) (sleeps : List ℚ)
  | raised (e : ε) (sleeps : List ℚ)
  | noneResult
deriving DecidableEq, Repr

/-- The `while attempt <= max_attempts` loop of `retry_on_failure`;
`remaining = max_attempts - attempt + 1`, so `remaining = 1` is the final
attempt (whose retryable failure is re-raised). -/
def retry_go (f : Nat → AttemptResult α ε) (backoff : ℚ) :
    Nat → Nat → ℚ → List ℚ → RetryResult α ε
  | 0, _, _, _ => .noneResult
  | r + 1, attempt, cur, sleeps =>
    match f attempt with
    | .ok v => .ok v sleeps
    | .fail true e =>
      if r = 0 then .raised e sleeps
      else retry_go f backoff r (attempt + 1) (cur * backoff) (sleeps ++ [cur])
    | .fail false e => .raised e sleeps

/-- `retry_on_failure(max_attempts, delay, backoff, exceptions)` applied to an
operation `f`: attempt 1 starts with the initial delay. -/
def retry_on_failure (f : Nat → AttemptResult α ε) (max_attempts : Nat)
    (delay backoff : ℚ) : RetryResult α ε :=
  retry_go f backoff max_attempts 1 delay []

/-- The sleep sequence the claim describes: `delay, delay*backoff, ...`,
`n` terms. -/
def geomSleeps (delay backoff : ℚ) (n : Nat) : List ℚ :=
  (List.range n).map (fun i => delay * backoff ^ i)

/-! ## Device capabilities and commands (src/utils/device_types.py) -/

/-- `DeviceCapabilities` dataclass (device_types.py lines 42-57); the source
field `command_syntax` is named `command_dialect` here. -/
structure DeviceCapabilities where
  vendor : String
  model : Option String := none
  version : Option String := none
  supports_enable_mode : Bool := true
  supports_config_mode : Bool := true
  supports_commit : Bool := false
  supports_rollback : Bool := false
  supports_archive : Bool := false
  supports_scp : Bool := false
  supports_https : Bool := false
  max_vlan_id : Nat := 4094
  features : List String := []
  command_dialect : String := "cisco"
deriving DecidableEq, Repr

/-- `DeviceTypeDetector.get_device_commands` (device_types.py lines 159-196):
fixed per-vendor command tables, empty for unknown vendors. -/
def get_device_commands (vendor : String) : List (String × String) :=
  if vendor = "cisco" then
    [("version", "show version"), ("interfaces", "show interfaces"),
     ("inventory", "show inventory"), ("cpu", "show processes cpu sorted"),
     ("memory", "show memory statistics"), ("config", "show running-config")]
  else if vendor = "arista" then
    [("version", "show version"), ("interfaces", "show interfaces"),
     ("inventory", "show inventory"), ("cpu", "show processes top once"),
     ("memory", "show version detail"), ("config", "show running-config")]
  else if vendor = "juniper" then
    [("version", "show version"), ("interfaces", "show interfaces terse"),
     ("inventory", "show chassis hardware"), ("cpu", "show chassis routing-engine"),
     ("memory", "show chassis routing-engine"), ("config", "show configuration")]
  else if vendor = "linux" then
    [("version", "uname -a"), ("interfaces", "ip addr show"),
     ("inventory", "dmidecode -t system"), ("cpu", "top -bn1 | head -20"),
     ("memory", "free -m"), ("config", "cat /etc/network/interfaces")]
  else []

/-! ## Device inventory record (src/scripts/device_discovery.py lines 54-86) -/

/-- `DeviceInfo` dataclass with the source's field defaults. -/
structure DeviceInfo where
  ip_address : String
  hostname : String := ""
  vendor : String := ""
  model : String := ""
  serial : String := ""
  os_version : String := ""
  device_type : String := ""
  role : String := ""
  location : String := ""
  uptime : String := ""
  management_ip : String := ""
  interfaces_count : Nat := 0
  vlans_count : Nat := 0
  mac_address : String := ""
  snmp_community : String := ""
  ssh_enabled : Bool := false
  telnet_enabled : Bool := false
  https_enabled : Bool := false
  discovery_method : String := ""
  last_seen : String := ""
  reachable : Bool := false
  response_time : ℚ := 0
  capabilities : Option DeviceCapabilities := none
deriving DecidableEq, Repr

/-! ## SNMP discovery (src/scripts/device_discovery.py lines 160-275) -/

/-- `DeviceDiscovery.parse_snmp_description` (lines 212-261): vendor/model
keyword matching on the lower-cased sysDescr text. -/
def parse_snmp_description (description : String) : String × String :=
  let d := pyLower description
  if strIn "cisco" d then
    ("Cisco",
      if strIn "catalyst" d then "Catalyst"
      else if strIn "nexus" d then "Nexus"
      else if strIn "asr" d then "ASR"
      else if strIn "isr" d then "ISR"
      else "Unknown")
  else if strIn "arista" d || strIn "eos" d then ("Arista", "EOS Switch")
  else if strIn "juniper" d || strIn "junos" d then
    ("Juniper",
      if strIn "ex" d then "EX Series"
      else if strIn "qfx" d then "QFX Series"
      else if strIn "mx" d then "MX Series"
      else "Unknown")
  else if strIn "hp" d || strIn "hewlett" d then
    ("HP",
      if strIn "procurve" d then "ProCurve"
      else if strIn "aruba" d then "Aruba"
      else "Unknown")
  else if strIn "dell" d then ("Dell", "PowerConnect")
  else ("Unknown", "Unknown")

/-- SNMP answers of one community for the five system OIDs queried by
`snmp_discovery`; `none` per field is an error indication/status, which the
source skips for that OID. -/
structure SnmpReply where
  sysDescr : Option String := none
  sysName : Option String := none
  sysUpTime : Option String := none
  sysContact : Option String := none
  sysLocation : Option String := none

/-- One community's turn inside `snmp_discovery` (lines 163-208): builds the
record from the answered OIDs; `int(sysUpTime)` failing to parse raises and
abandons this community; the record is kept only when a vendor string was
derived (the source's `if device_info.vendor:` truthiness test), and is then
marked reachable. -/
def snmp_process_community (ip community : String) (reply : SnmpReply) :
    Option DeviceInfo :=
  let uptimeParsed : Option (Option Nat) :=
    match reply.sysUpTime with
    | none => some none
    | some v => match pyToNat v with
      | some t => some (some t)
      | none => none
  match uptimeParsed with
  | none => none
  | some ticks? =>
    let vm := match reply.sysDescr with
      | some v => parse_snmp_description v
      | none => ("", "")
    let d : DeviceInfo :=
      { ip_address := ip
        discovery_method := "SNMP"
        snmp_community := community
        os_version := reply.sysDescr.getD ""
        vendor := vm.1
        model := vm.2
        hostname := reply.sysName.getD ""
        location := reply.sysLocation.getD ""
        uptime := match ticks? with
          | some t => format_uptime t
          | none => "" }
    if d.vendor ≠ "" then some { d with reachable := true } else none

/-- `DeviceDiscovery.snmp_discovery` (lines 160-210): first community that
yields a vendor-identified record wins; a community whose queries raise
(`oracle c = none`) is skipped.  The `retry_on_failure` decorator is inert
here because the body catches every per-community exception itself. -/
def snmp_discovery (ip : String) (communities : List String)
    (oracle : String → Option SnmpReply) : Option DeviceInfo :=
  communities.findSome? (fun c => (oracle c).bind (snmp_process_community ip c))

/-! ## SSH discovery text parsing (src/scripts/device_discovery.py lines 337-433) -/

/-- Python `s.split('\n')`. -/
def pySplitLines (s : String) : List String :=
  (s.data.splitOn '\n').map String.mk

/-- `parse_version_output` (lines 337-354). -/
def parse_version_output (output vendor : String) : String :=
  let lines := pySplitLines (pyLower output)
  if pyLower vendor = "cisco" then
    match lines.find? (fun l => strIn "version" l && (strIn "ios" l || strIn "nx-os" l)) with
    | some l => pyStrip l
    | none => "Unknown"
  else if pyLower vendor = "arista" then
    match lines.find? (fun l => strIn "software image version" l) with
    | some l => if strIn ":" l then pyStrip (((strSplitChar l ':').get? 1).getD "") else pyStrip l
    | none => "Unknown"
  else if pyLower vendor = "juniper" then
    match lines.find? (fun l => strIn "junos" l && strIn "version" l) with
    | some l => pyStrip l
    | none => "Unknown"
  else "Unknown"

/-- `parse_hostname` (lines 356-369). -/
def parse_hostname (output vendor : String) : String :=
  let lines := pySplitLines output
  (lines.findSome? (fun l₀ =>
    let l := pyStrip l₀
    if pyLower vendor = "cisco" then
      if strEnds l " uptime is" then some (strBefore l " uptime is") else none
    else if pyLower vendor = "arista" then
      if strIn "hostname" (pyLower l) then
        some (if strIn ":" l then pyStrip (((strSplitChar l ':').get? 1).getD "") else "")
      else none
    else none)).getD ""

/-- `parse_model` (lines 371-384). -/
def parse_model (output vendor : String) : String :=
  let lines := pySplitLines (pyLower output)
  if pyLower vendor = "cisco" then
    match lines.find? (fun l =>
        strIn "cisco" l && (strIn "catalyst" l || strIn "nexus" l || strIn "asr" l)) with
    | some l => pyStrip l
    | none => "Unknown"
  else if pyLower vendor = "arista" then
    match lines.find? (fun l => strIn "hardware version" l) with
    | some l => if strIn ":" l then pyStrip (((strSplitChar l ':').get? 1).getD "") else ""
    | none => "Unknown"
  else "Unknown"

/-- The inner token scan of `parse_serial`: the word after the first
whitespace-split token containing "serial" (case-insensitive), colons
stripped; nothing if no such token is followed by another. -/
def serialFromParts : List String → Option String
  | [] => none
  | [_] => none
  | p :: q :: rest =>
    if strIn "serial" (pyLower p) then some (stripColons q)
    else serialFromParts (q :: rest)

/-- `parse_serial` (lines 386-399). -/
def parse_serial (output : String) : String :=
  let lines := pySplitLines output
  (lines.findSome? (fun line =>
    if strIn "serial" (pyLower line) && strIn "number" (pyLower line) then
      serialFromParts (pySplitWs line)
    else none)).getD ""

/-- `count_interfaces` (lines 401-421). -/
def count_interfaces (output vendor : String) : Nat :=
  let lines := pySplitLines output
  lines.countP (fun l₀ =>
    let l := pyStrip l₀
    if l = "" then false
    else if pyLower vendor = "cisco" then
      ["GigabitEthernet", "FastEthernet", "TenGigabitEthernet", "Ethernet"].any
        (fun p => strStarts l p)
    else if pyLower vendor = "arista" then strStarts l "Ethernet"
    else if pyLower vendor = "juniper" then
      ["ge-", "xe-", "et-"].any (fun p => strStarts l p)
    else false)

/-- `determine_device_role` (lines 423-433). -/
def determine_device_role (d : DeviceInfo) : String :=
  if d.interfaces_count > 48 then "core"
  else if d.interfaces_count > 24 then "distribution"
  else if d.interfaces_count > 0 then "access"
  else "unknown"

/-! ## SSH discovery (src/scripts/device_discovery.py lines 277-335) -/

/-- Credentials record (`utils/common.py` `get_credentials` return value). -/
structure Credentials where
  username : Option String
  password : Option String
  secret : Option String := none
deriving DecidableEq, Repr

/-- Effects `ssh_discovery` depends on: credential resolution (`none` when it
raised, which the source catches into a `None` result), the detector's
result, whether `create_connection` succeeded, and the text each CLI command
returns. -/
structure SshEnv where
  creds : Option Credentials
  detect : Option (String × DeviceCapabilities)
  connect_ok : Bool
  cmd_output : String → String

/-- `DeviceDiscovery.ssh_discovery` (lines 277-335).  Any exception in the
body (credentials, detection, connection) yields `None`; otherwise the record
is built with `discovery_method='SSH'`, `ssh_enabled=True`, `reachable=True`,
enriched from the vendor's `version` and `interfaces` command output, and
given a role.  The retry decorator is inert because the body catches all
exceptions. -/
def ssh_discovery (ip : String) (env : SshEnv) : Option DeviceInfo :=
  match env.creds with
  | none => none
  | some _ =>
    match env.detect with
    | none => none
    | some (dt, caps) =>
      if dt = "" then none
      else if env.connect_ok = false then none
      else
        let d0 : DeviceInfo :=
          { ip_address := ip
            discovery_method := "SSH"
            device_type := dt
            capabilities := some caps
            ssh_enabled := true
            reachable := true }
        let commands := get_device_commands caps.vendor
        let d1 := match pyDictGet commands "version" with
          | some cmd =>
            let out := env.cmd_output cmd
            { d0 with
                os_version := parse_version_output out caps.vendor
                hostname := parse_hostname out caps.vendor
                model := parse_model out caps.vendor
                serial := parse_serial out
                vendor := caps.vendor }
          | none => d0
        let d2 := match pyDictGet commands "interfaces" with
          | some cmd =>
            { d1 with interfaces_count := count_interfaces (env.cmd_output cmd) caps.vendor }
          | none => d1
        some { d2 with role := determine_device_role d2 }

/-! ## Per-address discovery pipeline (src/scripts/device_discovery.py lines 129-158, 435-469) -/

/-- The fixed candidate port list scanned per address. -/
def common_ports : List Nat := [22, 23, 80, 443, 161, 830]

/-- Effects `discover_single_device` depends on: the TCP probe to port 22
(`is_host_reachable`), its round-trip time, the per-port scan results, the
current ISO timestamp, and the SNMP / SSH oracles. -/
structure DiscoveryEnv where
  ssh_probe_ok : Bool
  response_time : ℚ
  port_open : Nat → Bool
  now_iso : String
  snmp_oracle : String → Option SnmpReply
  ssh_env : SshEnv

/-- `scan_ports` (lines 144-158): only the fixed candidate ports are probed;
`open_ports.get(p, False)` is false for every other port. -/
def scan_ports (env : DiscoveryEnv) (port : Nat) : Bool :=
  if port ∈ common_ports then env.port_open port else false

/-- The enrichment `discover_single_device` applies to a discovered record
(lines 452-456 and 462-466): the probe's response time, the current ISO
timestamp as last_seen, and the observed HTTPS/Telnet port flags. -/
def enrich_device (env : DiscoveryEnv) (d : DeviceInfo) : DeviceInfo :=
  { d with
      response_time := env.response_time
      last_seen := env.now_iso
      https_enabled := scan_ports env 443
      telnet_enabled := scan_ports env 23 }

/-- `discover_single_device` (lines 435-469): drop unreachable addresses,
then SNMP first (if port 161 is open), then SSH (if port 22 is open), the
winner enriched with response time, last-seen timestamp and observed
HTTPS/Telnet flags. -/
def discover_single_device (env : DiscoveryEnv) (ip : String)
    (communities : List String) : Option DeviceInfo :=
  if env.ssh_probe_ok = false then none
  else
    match (if scan_ports env 161 then snmp_discovery ip communities env.snmp_oracle else none) with
    | some d => some (enrich_device env d)
    | none =>
      if scan_ports env 22 then (ssh_discovery ip env.ssh_env).map (enrich_device env)
      else none

/-! ## Inventory merge and summary (src/scripts/device_discovery.py lines 471-606) -/

/-- The result harvesting of `discover_network` (lines 505-528): each address
whose task yields a device is stored under its IP (`discovered[ip] = info`);
failed or empty tasks are skipped. -/
def discover_network_collect (results : String → Option DeviceInfo)
    (ips : List String) : List (String × DeviceInfo) :=
  ips.foldl (fun acc ip =>
    match results ip with
    | some d => pyDictSet acc ip d
    | none => acc) []

/-- The merged inventory written by `save_inventory` (line 536):
`{**self.known_devices, **self.discovered_devices}` — new entries win on IP
collision. -/
def merged_inventory (known discovered : List (String × DeviceInfo)) :
    List (String × DeviceInfo) :=
  pyDictMerge known discovered

/-- `generate_summary_report` (lines 573-606). -/
structure DiscoverySummary where
  total_devices : Nat
  reachable_devices : Nat
  unreachable_devices : Nat
  vendor_distribution : List (String × Nat)
  role_distribution : List (String × Nat)
  newly_discovered : Nat
deriving DecidableEq, Repr

/-- `generate_summary_report` (lines 573-606): statistics over the merged
view; `newly_discovered` is `len(self.discovered_devices)`. -/
def generate_summary_report (known discovered : List (String × DeviceInfo)) :
    DiscoverySummary :=
  let all := merged_inventory known discovered
  let devices := all.map (·.2)
  let vendors := devices.foldl (fun acc d =>
    let v := if d.vendor ≠ "" then d.vendor else "Unknown"
    pyDictSet acc v ((pyDictGet acc v).getD 0 + 1)) []
  let roles := devices.foldl (fun acc d =>
    let r := if d.role ≠ "" then d.role else "Unknown"
    pyDictSet acc r ((pyDictGet acc r).getD 0 + 1)) []
  let reachable_count := devices.countP (·.reachable)
  { total_devices := all.length
    reachable_devices := reachable_count
    unreachable_devices := all.length - reachable_count
    vendor_distribution := vendors
    role_distribution := roles
    newly_discovered := discovered.length }

/-! ## Credential manager (src/utils/common.py lines 174-222) -/

/-- The process environment and interactive answers `get_credentials` can
consult; `none` models an unset environment variable. -/
structure CredEnv where
  network_username : Option String := none
  default_username : Option String := none
  network_password : Option String := none
  default_password : Option String := none
  enable_password : Option String := none
  default_secret : Option String := none
  input_username : String := ""
  getpass_result : String := ""

/-- The per-instance credentials cache, keyed (as the Python dict is) by the
resolved username value — which can be `None`. -/
abbrev CredCache := List (Option String × Credentials)

/-- The username resolution of `get_credentials` (lines 192-196): explicit
argument, else `NETWORK_USERNAME` or `DEFAULT_USERNAME`, else (only when
prompting is enabled) the stripped interactive answer.  Also reports whether
the interactive username prompt was consulted. -/
def resolved_username (env : CredEnv) (username : Option String)
    (prompt_for_password : Bool) : Option String × Bool :=
  if pyTruthy username then (username, false)
  else
    let u1 := pyOr env.network_username env.default_username
    if pyTruthy u1 = false ∧ prompt_for_password then
      (some (pyStrip env.input_username), true)
    else (u1, false)

/-- Everything observable about one `get_credentials` call: its result, the
cache afterwards, and which interactive prompts were consulted. -/
structure CredCall where
  result : Except String Credentials
  cache : CredCache
  prompted_username : Bool
  prompted_password : Bool

/-- `CredentialManager.get_credentials` (common.py lines 180-222): resolve
the username; return a cached set unchanged when one exists for it; else
resolve the password from `NETWORK_PASSWORD`/`DEFAULT_PASSWORD`, then the
masked prompt when enabled; raise `CredentialError("No password available")`
when it is still falsy; else cache and return the new set (with the optional
enable secret from `ENABLE_PASSWORD`/`DEFAULT_SECRET`). -/
def get_credentials (env : CredEnv) (cache : CredCache)
    (username : Option String) (prompt_for_password : Bool) : CredCall :=
  let up := resolved_username env username prompt_for_password
  match pyDictGet cache up.1 with
  | some cr => ⟨.ok cr, cache, up.2, false⟩
  | none =>
    let pw0 := pyOr env.network_password env.default_password
    let secret := pyOr env.enable_password env.default_secret
    let pwp : Option String × Bool :=
      if pyTruthy pw0 = false ∧ prompt_for_password then (some env.getpass_result, true)
      else (pw0, false)
    if pyTruthy pwp.1 then
      let creds : Credentials :=
        { username := up.1
          password := pwp.1
          secret := if pyTruthy secret then secret else none }
      ⟨.ok creds, pyDictSet cache up.1 creds, up.2, pwp.2⟩
    else ⟨.error "No password available", cache, up.2, pwp.2⟩

/-! ## IP range expansion (src/scripts/device_discovery.py lines 471-501)

IPv4 addresses are modelled as `Nat` below `2^32`; the parsing mirrors what
Python's `ipaddress` module accepts for the strings this code hands it
(dotted quads without leading zeros, prefix lengths as bare digit strings or
dotted net/hostmasks). -/

/-- One dotted-quad octet as `ipaddress` parses it: ASCII digits only, at
most three of them, no leading zero (except "0" itself), value at most 255. -/
def parseOctet (s : String) : Option Nat :=
  if s.length = 0 ∨ 3 < s.length then none
  else if (s.data.all Char.isDigit) = false then none
  else if 1 < s.length ∧ s.data.head? = some '0' then none
  else match digitsToNat? s.data with
    | some v => if v ≤ 255 then some v else none
    | none => none

/-- Dotted-quad IPv4 parse to its 32-bit value. -/
def parseIPv4 (s : String) : Option Nat :=
  match (strSplitChar s '.').mapM parseOctet with
  | some [a, b, c, d] => some (((a * 256 + b) * 256 + c) * 256 + d)
  | _ => none

/-- The netmask integer of a prefix length. -/
def maskOfPrefixLen (p : Nat) : Nat := 2 ^ 32 - 2 ^ (32 - p)

/-- Recover a prefix length from a contiguous-netmask integer. -/
def prefixFromMaskInt (m : Nat) : Option Nat :=
  (List.range 33).find? (fun p => m == maskOfPrefixLen p)

/-- The prefix part after `/` as `ipaddress._make_netmask` accepts it: a bare
digit string at most 32, else a dotted netmask, else a dotted hostmask. -/
def parsePrefixPart (s : String) : Option Nat :=
  if s ≠ "" ∧ s.data.all Char.isDigit then
    match digitsToNat? s.data with
    | some p => if p ≤ 32 then some p else none
    | none => none
  else
    match parseIPv4 s with
    | none => none
    | some m =>
      match prefixFromMaskInt m with
      | some p => some p
      | none => prefixFromMaskInt (4294967295 - m)

/-- `ip_network(tok, strict=False)` for a token containing `/`: address and
prefix parsed, host bits cleared.  Returns `(network_address, prefixlen)`. -/
def parseCIDRTok (tok : String) : Option (Nat × Nat) :=
  match strSplitChar tok '/' with
  | [addrStr, prefStr] =>
    match parseIPv4 addrStr, parsePrefixPart prefStr with
    | some a, some p => some (a - a % 2 ^ (32 - p), p)
    | _, _ => none
  | _ => none

/-- `network.hosts()` of `ipaddress`: for /32 the single address, for /31
both, otherwise every address strictly between network and broadcast. -/
def cidrHosts (net p : Nat) : List Nat :=
  if p = 32 then [net]
  else if p = 31 then [net, net + 1]
  else (List.range (2 ^ (32 - p) - 2)).map (fun i => net + 1 + i)

/-- A hyphenated token: both ends stripped and parsed as IPv4 addresses. -/
def parseRangeTok (tok : String) : Option (Nat × Nat) :=
  match strSplitChar tok '-' with
  | [s1, s2] =>
    match parseIPv4 (pyStrip s1), parseIPv4 (pyStrip s2) with
    | some a, some b => some (a, b)
    | _, _ => none
  | _ => none

/-- The `while current <= end` walk: every address from `a` to `b` inclusive
(empty when `a > b`). -/
def rangeHosts (a b : Nat) : List Nat :=
  (List.range (b + 1 - a)).map (fun i => a + i)

/-- Render a 32-bit value back to the dotted quad `str(ip)` produces. -/
def ipToString (n : Nat) : String :=
  Nat.repr (n / 16777216 % 256) ++ "." ++ Nat.repr (n / 65536 % 256) ++ "." ++
    Nat.repr (n / 256 % 256) ++ "." ++ Nat.repr (n % 256)

/-- The per-token expansion inside `discover_network` (lines 476-495): CIDR
tokens yield their usable hosts, hyphenated tokens the inclusive range,
anything else is taken verbatim; a token whose parse raises is logged and
contributes nothing. -/
def expandToken (tok : String) : List String :=
  if strHasChar tok '/' then
    match parseCIDRTok tok with
    | some np => (cidrHosts np.1 np.2).map ipToString
    | none => []
  else if strHasChar tok '-' then
    match parseRangeTok tok with
    | some ab => (rangeHosts ab.1 ab.2).map ipToString
    | none => []
  else [tok]

/-- The range-parsing loop of `discover_network` (lines 473-495): tokens are
expanded left to right into one address list; a failing token is skipped
without aborting the rest. -/
def parse_ip_ranges (toks : List String) : List String :=
  toks.foldl (fun acc tok => acc ++ expandToken tok) []

/-! ## Output formatters (src/utils/output_formatters.py)

The data handed to `format_output` is a JSON-like value.  What each branch
writes is recorded at the fidelity the dispatch logic manipulates it:
the HTML branch's Jinja template data is computed exactly as the source
prepares it (metadata extraction, table-vs-raw selection), while the final
text serialisations (`json.dump`, `pandas.to_csv`/`to_excel`, the Jinja
render, Python `str()` on cell values) are library boundaries kept as
constructors. -/

/-- A Python value as the formatters see it. -/
inductive Payload where
  | str (s : String)
  | num (q : ℚ)
  | bool (b : Bool)
  | null
  | list (xs : List Payload)
  | dict (kvs : List (String × Payload))

/-- Is this value a Python list? -/
def Payload.isList : Payload → Bool
  | .list _ => true
  | _ => false

/-- Exceptions `format_output` can raise. -/
inductive PyErr where
  | valueError (msg : String)
  | attributeError (msg : String)
deriving DecidableEq, Repr

/-- The template data `_format_html` prepares (lines 204-229); cell values
are kept as payloads (`str()` coercion is the render boundary). -/
structure TemplateData where
  metadata : Option Payload := none
  headers : Option (List String) := none
  table_data : Option (List (List Payload)) := none
  raw_data : Option Payload := none

/-- What one branch writes to one file. -/
inductive FileContent where
  | jsonC (p : Payload)
  | csvC (c : Payload)
  | htmlC (t : TemplateData)
  | excelC (sheets : List (String × List Payload))

/-- One written file. -/
structure FileWrite where
  path : String
  content : FileContent

/-- `_format_html`'s template-data preparation (lines 204-229): metadata is
extracted from a dict with a `metadata` key (the payload then being its
`data` value, or the dict itself); a non-empty list headed by a dict becomes
a header/row table — any later non-dict row makes `row.get` raise
`AttributeError`; anything else is dumped as raw data. -/
def htmlTemplateData (data : Payload) : Except PyErr TemplateData :=
  let meta_actual : Option Payload × Payload :=
    match data with
    | .dict kvs =>
      match pyDictGet kvs "metadata" with
      | some m => (some m, (pyDictGet kvs "data").getD data)
      | none => (none, data)
    | _ => (none, data)
  let metadata := meta_actual.1
  let actual := meta_actual.2
  match actual with
  | .list (x :: xs) =>
    match x with
    | .dict kvs0 =>
      let headers := kvs0.map (·.1)
      match (x :: xs).mapM (fun row =>
          match row with
          | .dict rkvs => Except.ok (headers.map (fun h => (pyDictGet rkvs h).getD (.str "")))
          | _ => Except.error (PyErr.attributeError "object has no attribute get")) with
      | .ok rows => .ok { metadata := metadata, headers := some headers, table_data := some rows }
      | .error e => .error e
    | _ => .ok { metadata := metadata, raw_data := some actual }
  | _ => .ok { metadata := metadata, raw_data := some actual }

/-- `_format_html` (lines 99-239): render the template data and write one
HTML file, returning its path. -/
def format_html_file (data : Payload) (filepath : String) :
    Except PyErr (List FileWrite × String) :=
  match htmlTemplateData data with
  | .ok td => .ok ([⟨filepath, .htmlC td⟩], filepath)
  | .error e => .error e

/-- The tabular normalisation of `_format_csv` (lines 71-96), recorded as
the payload the DataFrame is built from; non-dict/list data raises
`ValueError`. -/
def csvNorm : Payload → Except PyErr Payload
  | .dict kvs =>
    match pyDictGet kvs "data" with
    | some (.list l) => .ok (.list l)
    | _ =>
      if kvs.all (fun kv => kv.2.isList) then .ok (.dict kvs)
      else .ok (.list [.dict kvs])
  | .list xs => .ok (.list xs)
  | _ => .error (.valueError "Data must be dict or list for CSV formatting")

/-- Truncate a sheet name to Excel's 31-character limit. -/
def sheetName31 (s : String) : String :=
  String.mk (s.data.take 31)

/-- The sheet construction of `_format_excel` (lines 242-264): a dict yields
one sheet per non-empty-list or dict value (name truncated to 31 chars), a
list one `Data` sheet of its rows, anything else a single-row `Data` sheet. -/
def excelSheets : Payload → List (String × List Payload)
  | .dict kvs =>
    kvs.filterMap (fun kv =>
      match kv.2 with
      | .list (x :: xs) => some (sheetName31 kv.1, x :: xs)
      | .dict d => some (sheetName31 kv.1, [.dict d])
      | _ => none)
  | .list xs => [("Data", xs)]
  | other => [("Data", [other])]

/-- `Path.with_suffix('.html')`: the old suffix replaced by `.html`. -/
def withSuffixHtml (p : String) : String :=
  (p.dropRight (pySuffix p).length) ++ ".html"

/-- `_format_pdf` (lines 267-275): writes the HTML rendering at the `.html`
sibling path and returns that path — no PDF file is produced. -/
def format_pdf_file (data : Payload) (filepath : String) :
    Except PyErr (List FileWrite × String) :=
  format_html_file data (withSuffixHtml filepath)

/-- `format_output` (lines 27-61): lower-cased dispatch over the five
supported formats under `output_dir/filename`, raising `ValueError` for
anything else.  The directory creation and timestamp default filename are
effect boundaries; the caller-supplied name is used. -/
def format_output (data : Payload) (format_type : String)
    (filename : String) (output_dir : String) :
    Except PyErr (List FileWrite × String) :=
  let base := output_dir ++ "/" ++ filename
  let ft := pyLower format_type
  if ft = "json" then .ok ([⟨base ++ ".json", .jsonC data⟩], base ++ ".json")
  else if ft = "csv" then
    match csvNorm data with
    | .ok c => .ok ([⟨base ++ ".csv", .csvC c⟩], base ++ ".csv")
    | .error e => .error e
  else if ft = "html" then format_html_file data (base ++ ".html")
  else if ft = "excel" then .ok ([⟨base ++ ".xlsx", .excelC (excelSheets data)⟩], base ++ ".xlsx")
  else if ft = "pdf" then format_pdf_file data (base ++ ".pdf")
  else .error (.valueError ("Unsupported format type: " ++ format_type))

/-! ## Concrete instances used by witnesses and counterexamples -/

/-- A wrapped operation that fails retryably on attempts 1-2 and succeeds on
attempt 3. -/
def retry_demo_op : Nat → AttemptResult Nat String :=
  fun i => if i < 3 then .fail true "timed out" else .ok 42

/-- A wrapped operation that fails retryably on every attempt. -/
def retry_demo_fail : Nat → AttemptResult Nat String :=
  fun _ => .fail true "timed out"

/-- The stale inventory record for IP A. -/
def devA_old : DeviceInfo := { ip_address := "10.0.0.1" }

/-- The freshly discovered record for IP A. -/
def devA_new : DeviceInfo :=
  { ip_address := "10.0.0.1", vendor := "Cisco", discovery_method := "SNMP", reachable := true }

/-- The freshly discovered record for the new IP B. -/
def devB_new : DeviceInfo :=
  { ip_address := "10.0.0.2", vendor := "Arista", discovery_method := "SSH", reachable := true }

/-- An inventory already containing IP A. -/
def c2_known : List (String × DeviceInfo) := [("10.0.0.1", devA_old)]

/-- A discovery run in which A responds again and B responds for the first
time. -/
def c2_oracle : String → Option DeviceInfo :=
  fun ip =>
    if ip = "10.0.0.1" then some devA_new
    else if ip = "10.0.0.2" then some devB_new
    else none

/-- The devices that run collects. -/
def c2_discovered : List (String × DeviceInfo) :=
  discover_network_collect c2_oracle ["10.0.0.1", "10.0.0.2"]

/-- An environment with only `NETWORK_PASSWORD` set. -/
def c5_env : CredEnv := { network_password := some "pw" }

/-- The credential set `get_credentials` builds in that environment for an
explicit username. -/
def c5_creds : Credentials := { username := some "admin", password := some "pw" }

/-- A payload on which the HTML renderer raises: a non-empty list headed by
a dict but containing a non-dict element (`row.get` then raises
`AttributeError`). -/
def c8_mixed : Payload := .list [.dict [("a", .num 1)], .num 2]

/-- A well-formed report payload (metadata block plus a list-of-dicts data
table). -/
def c8_good : Payload :=
  .dict [("metadata", .dict [("total", .num 3)]),
         ("data", .list [.dict [("ip", .str "10.0.0.1")]])]

/-- The template data the HTML renderer prepares for `c8_good`. -/
def c8_td : TemplateData :=
  { metadata := some (.dict [("total", .num 3)])
    headers := some ["ip"]
    table_data := some [[.str "10.0.0.1"]] }

/-- SNMP answers advertising a Cisco Catalyst with one day of uptime. -/
def c9_reply : SnmpReply :=
  { sysDescr := some "Cisco IOS Software Catalyst"
    sysName := some "sw1"
    sysUpTime := some "8640000"
    sysLocation := some "dc1" }

/-- A discovery environment in which the address answers the TCP probe,
has ports 22 and 161 open, and answers SNMP for community "public". -/
def c9_env : DiscoveryEnv :=
  { ssh_probe_ok := true
    response_time := 5
    port_open := fun p => p == 161 || p == 22
    now_iso := "2026-10-12T00:00:00"
    snmp_oracle := fun c => if c = "public" then some c9_reply else none
    ssh_env := { creds := none, detect := none, connect_ok := false, cmd_output := fun _ => "" } }

/-! # Theorems -/

/-- Python dict assignment followed by lookup of the same key yields the
assigned value, whether the key was present or fresh. -/
theorem pyDictGet_set_self {K V : Type} [BEq K] [LawfulBEq K]
    (d : List (K × V)) (k : K) (v : V) :
    pyDictGet (pyDictSet d k v) k = some v := by
  unfold pyDictSet pyDictGet
  by_cases h : d.any (·.1 == k)
  · rw [if_pos h]
    have key : ∀ (l : List (K × V)), l.any (·.1 == k) = true →
        (l.map (fun kv => if kv.1 == k then (k, v) else kv)).find? (·.1 == k) =
          some (k, v) := by
      intro l hl
      induction l with
      | nil => simp at hl
      | cons a as ih =>
        rw [List.map_cons]
        by_cases ha : a.1 == k
        · rw [if_pos ha]
          simp [List.find?]
        · rw [if_neg ha]
          rw [List.any_cons] at hl
          have has : as.any (·.1 == k) = true := by
            cases (Bool.or_eq_true _ _).mp hl with
            | inl h' => exact absurd h' (by simp_all)
            | inr h' => exact h'
          rw [List.find?_cons_of_neg _ (by simp_all)]
          exact ih has
    rw [key d h]
    rfl
  · rw [if_neg h]
    have hnone : d.find? (·.1 == k) = none := by
      rw [List.find?_eq_none]
      intro x hx hxk
      exact h (List.any_eq_true.mpr ⟨x, hx, hxk⟩)
    rw [List.find?_append, hnone]
    simp [List.find?]

/-- Skipping `n` consecutive retryable failures from attempt `att` advances
the retry loop `n` steps, multiplying the delay by `backoff` each time and
recording the geometric sleep sequence. -/
theorem retry_go_skip {α ε : Type} (f : Nat → AttemptResult α ε) (backoff : ℚ) :
    ∀ (n r att : Nat) (cur : ℚ) (sl : List ℚ), n < r →
      (∀ i, i < n → ∃ e, f (att + i) = .fail true e) →
      retry_go f backoff r att cur sl =
        retry_go f backoff (r - n) (att + n) (cur * backoff ^ n)
          (sl ++ (List.range n).map (fun i => cur * backoff ^ i)) := by
  intro n
  induction n with
  | zero => intro r att cur sl _ _; simp
  | succ n ih =>
    intro r att cur sl hnr hfail
    obtain ⟨e, he⟩ := hfail 0 (Nat.succ_pos n)
    rw [Nat.add_zero] at he
    obtain ⟨r', rfl⟩ : ∃ r', r = r' + 1 := ⟨r - 1, by omega⟩
    have hr' : n < r' := by omega
    have hr'0 : r' ≠ 0 := by omega
    simp only [retry_go, he]
    rw [if_neg hr'0]
    rw [ih r' (att + 1) (cur * backoff) (sl ++ [cur]) hr'
      (fun i hi => by
        have := hfail (i + 1) (by omega)
        simpa [Nat.add_comm, Nat.add_assoc, Nat.add_left_comm] using this)]
    have hfn : (fun i => cur * backoff * backoff ^ i) =
        ((fun i => cur * backoff ^ i) ∘ Nat.succ) := by
      funext i
      simp [Function.comp, pow_succ]
      ring
    congr 1
    · omega
    · omega
    · ring
    · rw [List.append_assoc, List.range_succ_eq_map, List.map_cons, List.map_map, ← hfn]
      simp

/-- C4: if the wrapped operation succeeds on attempt `k ≤ max_attempts`
after retryable failures on attempts `1..k-1`, the wrapper returns that
success having slept `delay, delay*backoff, ...` between attempts; if all
`max_attempts` attempts fail retryably the final failure is re-raised; a
non-retryable failure on any attempt propagates immediately. -/
theorem C4_retry_on_failure {α ε : Type} (f : Nat → AttemptResult α ε)
    (max_attempts : Nat) (delay backoff : ℚ) :
    (∀ k v, 1 ≤ k → k ≤ max_attempts →
      (∀ i, 1 ≤ i → i < k → ∃ e, f i = .fail true e) → f k = .ok v →
      retry_on_failure f max_attempts delay backoff =
        .ok v (geomSleeps delay backoff (k - 1))) ∧
    (∀ e, 1 ≤ max_attempts →
      (∀ i, 1 ≤ i → i < max_attempts → ∃ e', f i = .fail true e') →
      f max_attempts = .fail true e →
      retry_on_failure f max_attempts delay backoff =
        .raised e (geomSleeps delay backoff (max_attempts - 1))) ∧
    (∀ j e, 1 ≤ j → j ≤ max_attempts →
      (∀ i, 1 ≤ i → i < j → ∃ e', f i = .fail true e') → f j = .fail false e →
      retry_on_failure f max_attempts delay backoff =
        .raised e (geomSleeps delay backoff (j - 1))) := by
  refine ⟨?_, ?_, ?_⟩
  · intro k v hk1 hkm hfail hok
    unfold retry_on_failure
    rw [retry_go_skip f backoff (k - 1) max_attempts 1 delay [] (by omega)
      (fun i hi => by
        have := hfail (1 + i) (by omega) (by omega)
        exact this)]
    obtain ⟨m, hm⟩ : ∃ m, max_attempts - (k - 1) = m + 1 := ⟨max_attempts - k, by omega⟩
    rw [hm, show 1 + (k - 1) = k by omega]
    simp only [retry_go, hok, List.nil_append, geomSleeps]
  · intro e hm1 hfail hlast
    unfold retry_on_failure
    rw [retry_go_skip f backoff (max_attempts - 1) max_attempts 1 delay [] (by omega)
      (fun i hi => by
        have := hfail (1 + i) (by omega) (by omega)
        exact this)]
    rw [show max_attempts - (max_attempts - 1) = 1 by omega,
      show 1 + (max_attempts - 1) = max_attempts by omega]
    simp [retry_go, hlast, geomSleeps]
  · intro j e hj1 hjm hfail hfat
    unfold retry_on_failure
    rw [retry_go_skip f backoff (j - 1) max_attempts 1 delay [] (by omega)
      (fun i hi => by
        have := hfail (1 + i) (by omega) (by omega)
        exact this)]
    obtain ⟨m, hm⟩ : ∃ m, max_attempts - (j - 1) = m + 1 := ⟨max_attempts - j, by omega⟩
    rw [hm, show 1 + (j - 1) = j by omega]
    simp only [retry_go, hfat, List.nil_append, geomSleeps]

/-- Witness for C4 at `max_attempts=3, delay=1, backoff=2`: failures on
attempts 1-2 and success on attempt 3 return the success result after
sleeping 1s then 2s; three retryable failures re-raise the final one. -/
theorem C4_retry_on_failure_witness :
    retry_on_failure retry_demo_op 3 1 2 = .ok 42 [1, 2] ∧
    retry_on_failure retry_demo_fail 3 1 2 = .raised "timed out" [1, 2] := by
  constructor
  · have h := (C4_retry_on_failure retry_demo_op 3 1 2).1 3 42 (by decide) (by decide)
      (fun i h1 h2 => ⟨"timed out", by interval_cases i <;> decide⟩) (by decide)
    rw [h]
    norm_num [geomSleeps, List.range_succ]
  · have h := (C4_retry_on_failure retry_demo_fail 3 1 2).2.1 "timed out" (by decide)
      (fun i h1 h2 => ⟨"timed out", rfl⟩) rfl
    rw [h]
    norm_num [geomSleeps, List.range_succ]

/-- C2 counterexample: with a loaded inventory containing only IP A, a run
that re-discovers A and newly discovers B merges to exactly {A (new), B},
but the summary's `newly_discovered` is 2 (it is `len(discovered_devices)`,
which includes the re-discovered A), not 1 as the claim states. -/
theorem C2_newly_discovered_counterexample :
    merged_inventory c2_known c2_discovered =
      [("10.0.0.1", devA_new), ("10.0.0.2", devB_new)] ∧
    (generate_summary_report c2_known c2_discovered).newly_discovered = 2 ∧
    ¬ (generate_summary_report c2_known c2_discovered).newly_discovered = 1 := by
  refine ⟨by decide, by decide, by decide⟩

/-- C2 amended: the merged saved inventory is exactly {A (new record), B},
and `newly_discovered` equals 2 — the number of devices discovered in the
run, counting the re-discovered known IP. -/
theorem C2_inventory_merge (A B : String) (oldA newA newB : DeviceInfo) (hAB : A ≠ B) :
    merged_inventory [(A, oldA)]
        (discover_network_collect
          (fun ip => if ip = A then some newA else if ip = B then some newB else none)
          [A, B]) = [(A, newA), (B, newB)] ∧
    (generate_summary_report [(A, oldA)]
        (discover_network_collect
          (fun ip => if ip = A then some newA else if ip = B then some newB else none)
          [A, B])).newly_discovered = 2 := by
  have hBA : ¬(B = A) := fun hEq => hAB hEq.symm
  constructor
  · simp [discover_network_collect, pyDictSet, pyDictMerge, merged_inventory, hAB, hBA]
  · simp [discover_network_collect, pyDictSet, generate_summary_report, hAB, hBA]

/-- Witness for the amended C2 at concrete devices. -/
theorem C2_inventory_merge_witness :
    merged_inventory [("10.0.0.1", devA_old)]
        (discover_network_collect
          (fun ip => if ip = "10.0.0.1" then some devA_new
            else if ip = "10.0.0.2" then some devB_new else none)
          ["10.0.0.1", "10.0.0.2"]) = [("10.0.0.1", devA_new), ("10.0.0.2", devB_new)] :=
  (C2_inventory_merge "10.0.0.1" "10.0.0.2" devA_old devA_new devB_new (by decide)).1

/-- The password the credential manager ends up testing is truthy exactly
when an environment password is truthy or the enabled prompt returns a
non-empty answer. -/
theorem cred_password_truthy_iff (env : CredEnv) (prompt : Bool) :
    pyTruthy (if pyTruthy (pyOr env.network_password env.default_password) = false ∧ prompt = true
        then (some env.getpass_result, true)
        else (pyOr env.network_password env.default_password, false)).1 = true ↔
      (pyTruthy (pyOr env.network_password env.default_password) = true ∨
        (prompt = true ∧ env.getpass_result ≠ "")) := by
  by_cases h0 : pyTruthy (pyOr env.network_password env.default_password) = true
  · rw [if_neg (by simp [h0])]
    simp [h0]
  · rw [Bool.not_eq_true] at h0
    by_cases hp : prompt = true
    · rw [if_pos ⟨h0, hp⟩]
      simp only [h0, hp, true_and]
      simp [pyTruthy]
    · rw [Bool.not_eq_true] at hp
      rw [if_neg (by simp [hp])]
      simp [h0, hp]

/-- C5: `get_credentials` resolves the username by explicit argument, then
`NETWORK_USERNAME`, then `DEFAULT_USERNAME`, then the interactive prompt; a
cached set for the resolved username is returned unchanged regardless of the
prompt flag; otherwise the password comes from
`NETWORK_PASSWORD`/`DEFAULT_PASSWORD` then the prompt, with
CredentialError("No password available") exactly when none resolves; a
successful set is cached, so a second call with the same resolved username
returns it without consulting the password prompt. -/
theorem C5_get_credentials (env : CredEnv) (cache : CredCache)
    (u0 : Option String) (prompt : Bool) :
    (pyTruthy u0 = true → (resolved_username env u0 prompt).1 = u0) ∧
    (pyTruthy u0 = false → pyTruthy env.network_username = true →
      (resolved_username env u0 prompt).1 = env.network_username) ∧
    (pyTruthy u0 = false → pyTruthy env.network_username = false →
      pyTruthy env.default_username = true →
      (resolved_username env u0 prompt).1 = env.default_username) ∧
    (pyTruthy u0 = false → pyTruthy env.network_username = false →
      pyTruthy env.default_username = false → prompt = true →
      (resolved_username env u0 prompt).1 = some (pyStrip env.input_username)) ∧
    (∀ cr, pyDictGet cache (resolved_username env u0 prompt).1 = some cr →
      (get_credentials env cache u0 prompt).result = .ok cr ∧
      (get_credentials env cache u0 prompt).cache = cache ∧
      (get_credentials env cache u0 prompt).prompted_password = false) ∧
    (pyDictGet cache (resolved_username env u0 prompt).1 = none →
      ((get_credentials env cache u0 prompt).result = .error "No password available" ↔
        pyTruthy (pyOr env.network_password env.default_password) = false ∧
          ¬(prompt = true ∧ env.getpass_result ≠ ""))) ∧
    (∀ cr, (get_credentials env cache u0 prompt).result = .ok cr →
      (get_credentials env ((get_credentials env cache u0 prompt).cache) u0 prompt).result
          = .ok cr ∧
      (get_credentials env ((get_credentials env cache u0 prompt).cache) u0 prompt).prompted_password
          = false) := by
  refine ⟨?_, ?_, ?_, ?_, ?_, ?_, ?_⟩
  · intro ht
    simp [resolved_username, ht]
  · intro hf hnw
    simp [resolved_username, hf, pyOr, hnw]
  · intro hf hnw hdw
    have : pyTruthy (pyOr env.network_username env.default_username) = true := by
      simp [pyOr, hnw, hdw]
    simp [resolved_username, hf, this, pyOr, hnw, hdw]
  · intro hf hnw hdw hp
    have : pyTruthy (pyOr env.network_username env.default_username) = false := by
      simp [pyOr, hnw, hdw]
    simp [resolved_username, hf, this, hp]
  · intro cr hcr
    simp [get_credentials, hcr]
  · intro hnone
    simp only [get_credentials, hnone]
    by_cases hpw : pyTruthy (if pyTruthy (pyOr env.network_password env.default_password) = false ∧ prompt = true
        then (some env.getpass_result, true)
        else (pyOr env.network_password env.default_password, false)).1 = true
    · rw [if_pos hpw]
      have hAB := (cred_password_truthy_iff env prompt).mp hpw
      constructor
      · intro h
        exact Except.noConfusion h
      · rintro ⟨h1, h2⟩
        rcases hAB with hA | hB
        · rw [h1] at hA
          exact absurd hA (by simp)
        · exact absurd hB h2
    · rw [if_neg hpw]
      have hnAB : ¬(pyTruthy (pyOr env.network_password env.default_password) = true ∨
          (prompt = true ∧ env.getpass_result ≠ "")) :=
        fun hAB => hpw ((cred_password_truthy_iff env prompt).mpr hAB)
      constructor
      · intro _
        constructor
        · cases hb : pyTruthy (pyOr env.network_password env.default_password) with
          | false => rfl
          | true => exact absurd (Or.inl hb) hnAB
        · exact fun hB => hnAB (Or.inr hB)
      · intro _
        rfl
  · intro cr hok
    cases hlook : pyDictGet cache (resolved_username env u0 prompt).1 with
    | some cr0 =>
      have h1 : (get_credentials env cache u0 prompt).result = .ok cr0 := by
        simp [get_credentials, hlook]
      have h2 : (get_credentials env cache u0 prompt).cache = cache := by
        simp [get_credentials, hlook]
      rw [h1] at hok
      obtain rfl : cr0 = cr := by
        injection hok
      rw [h2]
      constructor
      · simp [get_credentials, hlook]
      · simp [get_credentials, hlook]
    | none =>
      by_cases hpw : pyTruthy (if pyTruthy (pyOr env.network_password env.default_password) = false ∧ prompt = true then (some env.getpass_result, true) else (pyOr env.network_password env.default_password, false)).1 = true
      · have h1 : (get_credentials env cache u0 prompt).result =
            .ok { username := (resolved_username env u0 prompt).1
                  password := (if pyTruthy (pyOr env.network_password env.default_password) = false ∧ prompt = true then (some env.getpass_result, true) else (pyOr env.network_password env.default_password, false)).1
                  secret := if pyTruthy (pyOr env.enable_password env.default_secret) then pyOr env.enable_password env.default_secret else none } := by
          simp only [get_credentials, hlook]
          rw [if_pos hpw]
        have h2 : (get_credentials env cache u0 prompt).cache =
            pyDictSet cache (resolved_username env u0 prompt).1
              { username := (resolved_username env u0 prompt).1
                password := (if pyTruthy (pyOr env.network_password env.default_password) = false ∧ prompt = true then (some env.getpass_result, true) else (pyOr env.network_password env.default_password, false)).1
                secret := if pyTruthy (pyOr env.enable_password env.default_secret) then pyOr env.enable_password env.default_secret else none } := by
          simp only [get_credentials, hlook]
          rw [if_pos hpw]
        rw [h1] at hok
        obtain rfl : _ = cr := by
          injection hok
        rw [h2]
        have hset := pyDictGet_set_self cache (resolved_username env u0 prompt).1
          ({ username := (resolved_username env u0 prompt).1
             password := (if pyTruthy (pyOr env.network_password env.default_password) = false ∧ prompt = true then (some env.getpass_result, true) else (pyOr env.network_password env.default_password, false)).1
             secret := if pyTruthy (pyOr env.enable_password env.default_secret) then pyOr env.enable_password env.default_secret else none } : Credentials)
        constructor
        · simp [get_credentials, hset]
        · simp [get_credentials, hset]
      · exfalso
        have : (get_credentials env cache u0 prompt).result = .error "No password available" := by
          simp only [get_credentials, hlook]
          rw [if_neg hpw]
        rw [this] at hok
        exact Except.noConfusion hok

/-- Witness for C5: explicit username "admin" with `NETWORK_PASSWORD` set —
the first call builds and caches the set, the second call returns it without
consulting the password prompt. -/
theorem C5_get_credentials_witness :
    (get_credentials c5_env [] (some "admin") true).result = .ok c5_creds ∧
    (get_credentials c5_env ((get_credentials c5_env [] (some "admin") true).cache)
        (some "admin") true).result = .ok c5_creds ∧
    (get_credentials c5_env ((get_credentials c5_env [] (some "admin") true).cache)
        (some "admin") true).prompted_password = false := by
  refine ⟨rfl, ?_, ?_⟩
  · exact ((C5_get_credentials c5_env [] (some "admin") true).2.2.2.2.2.2 c5_creds rfl).1
  · exact ((C5_get_credentials c5_env [] (some "admin") true).2.2.2.2.2.2 c5_creds rfl).2

/-- C1: `calculate_overall_status` returns CRITICAL for an unreachable
device; otherwise, over the union of the cpu, memory, temperature-sensor,
power-supply, fan, interface-error and interface-utilization metrics, it
returns CRITICAL when any metric is CRITICAL, else WARNING when any is
WARNING, else GOOD when at least one metric exists, else UNKNOWN. -/
theorem C1_overall_status (h : DeviceHealth) :
    calculate_overall_status h =
      if h.reachable = false then .critical
      else if ∃ m ∈ h.allMetrics, m.status = .critical then .critical
      else if ∃ m ∈ h.allMetrics, m.status = .warning then .warning
      else if h.allMetrics ≠ [] then .good
      else .unknown := by
  cases hrb : h.reachable
  · simp [calculate_overall_status, hrb]
  · simp only [calculate_overall_status, hrb, gt_iff_lt, List.countP_pos_iff,
      beq_iff_eq, List.length_eq_zero]
    by_cases hnil : h.allMetrics = []
    · simp [hnil]
    · by_cases hc : ∃ m ∈ h.allMetrics, m.status = .critical
      · simp [hnil, hc]
      · by_cases hw : ∃ m ∈ h.allMetrics, m.status = .warning
        · simp [hnil, hc, hw]
        · simp [hnil, hc, hw]

/-- C3: the Suite Runner classifies a tool run as success when its entry
function returns normally or exits with code 0 or no code, as warning when
it exits with code 1, and as error for any other exit code or an uncaught
exception; the suite's process exit code is 2 when any tool errored, else 1
when any warned, else 0. -/
theorem C3_runner_classification (name : String) :
    (run_script name .normal).status = .success ∧
    (run_script name (.exits none)).status = .success ∧
    (run_script name (.exits (some 0))).status = .success ∧
    (run_script name (.exits (some 1))).status = .warning ∧
    (∀ c : Int, c ≠ 0 → c ≠ 1 → (run_script name (.exits (some c))).status = .error) ∧
    (∀ m : String, (run_script name (.raises m)).status = .error) ∧
    (∀ results : List ScriptResult,
      suite_exit_code results =
        if ∃ r ∈ results, r.status = .error then 2
        else if ∃ r ∈ results, r.status = .warning then 1
        else 0) := by
  refine ⟨rfl, rfl, by simp [run_script], by simp [run_script], ?_, fun m => rfl, ?_⟩
  · intro c hc0 hc1
    simp [run_script, hc0, hc1]
  · intro results
    simp only [suite_exit_code, gt_iff_lt, List.countP_pos_iff, beq_iff_eq]

/-- Witness for C3 at concrete inputs: exit code 3 is classified as error,
and a suite with one success and one warning exits 1, while one with an
error exits 2. -/
theorem C3_runner_classification_witness :
    (run_script "stp" (.exits (some 3))).status = .error ∧
    suite_exit_code [run_script "a" .normal, run_script "b" (.exits (some 1))] = 1 ∧
    suite_exit_code [run_script "a" .normal, run_script "b" (.raises "boom")] = 2 := by
  refine ⟨(C3_runner_classification "stp").2.2.2.2.1 3 (by decide) (by decide), ?_, ?_⟩
  · rw [(C3_runner_classification "x").2.2.2.2.2.2]
    simp [run_script]
  · rw [(C3_runner_classification "x").2.2.2.2.2.2]
    simp [run_script]

/-- C6: `format_uptime` computes seconds = ticks div 100, days, hours and
minutes by the stated div/mod formulas, omitting the day part when zero and
the hour part when both are zero; 8,640,000 ticks give "1d 0h 0m",
360,000 give "1h 0m", 6,000 give "1m". -/
theorem C6_format_uptime :
    (∀ ticks : Nat,
      format_uptime ticks =
        if ticks / 100 / 86400 > 0 then
          Nat.repr (ticks / 100 / 86400) ++ "d " ++
            Nat.repr (ticks / 100 % 86400 / 3600) ++ "h " ++
            Nat.repr (ticks / 100 % 3600 / 60) ++ "m"
        else if ticks / 100 % 86400 / 3600 > 0 then
          Nat.repr (ticks / 100 % 86400 / 3600) ++ "h " ++
            Nat.repr (ticks / 100 % 3600 / 60) ++ "m"
        else Nat.repr (ticks / 100 % 3600 / 60) ++ "m") ∧
    format_uptime 8640000 = "1d 0h 0m" ∧
    format_uptime 360000 = "1h 0m" ∧
    format_uptime 6000 = "1m" := by
  refine ⟨fun ticks => rfl, by decide, by decide, by decide⟩

/-- C10: `load_config` checks existence before the extension, so every
missing path fails with NotFound regardless of its extension, and
InvalidInput occurs exactly for an existing file whose suffix is neither
`.yaml`/`.yml` nor `.json`. -/
theorem C10_load_config (fs : FileSys) (p : String) :
    (fs p = none →
      load_config fs p = .error (.notFound ("Configuration file not found: " ++ p))) ∧
    ((∃ m, load_config fs p = .error (.invalidFormat m)) ↔
      (∃ c, fs p = some c) ∧
        pySuffix p ≠ ".yaml" ∧ pySuffix p ≠ ".yml" ∧ pySuffix p ≠ ".json") := by
  constructor
  · intro hfs
    simp [load_config, hfs]
  · cases hfs : fs p with
    | none => simp [load_config, hfs]
    | some content =>
      simp only [load_config, hfs]
      by_cases hy : pySuffix p = ".yaml" ∨ pySuffix p = ".yml"
      · rcases hy with hy | hy <;> simp [hy]
      · push_neg at hy
        by_cases hj : pySuffix p = ".json"
        · simp [hy.1, hy.2, hj]
        · simp [hy.1, hy.2, hj]

/-- Witness for C10 at a concrete input: a missing `.txt` path yields
NotFound (not InvalidInput). -/
theorem C10_load_config_witness :
    load_config (fun _ => none) "config/settings.txt" =
      .error (.notFound "Configuration file not found: config/settings.txt") :=
  (C10_load_config (fun _ => none) "config/settings.txt").1 rfl

/-- Folding token expansions left to right from an accumulator appends the
concatenated expansions. -/
theorem foldl_append_eq_flatMap {α β : Type} (f : α → List β) :
    ∀ (l : List α) (acc : List β),
      l.foldl (fun a t => a ++ f t) acc = acc ++ l.flatMap f := by
  intro l
  induction l with
  | nil => intro acc; simp
  | cons t ts ih =>
    intro acc
    rw [List.foldl_cons, ih, List.flatMap_cons, List.append_assoc]

/-- C7: each range token expands independently — CIDR tokens to exactly the
usable host addresses (strictly between network and broadcast for prefixes
up to /30), hyphenated tokens to the inclusive start-end range, other tokens
to themselves — and a token that fails to parse contributes no addresses
without aborting the rest (the expansion is the concatenation of per-token
expansions). -/
theorem C7_ip_range_expansion :
    (∀ toks : List String, parse_ip_ranges toks = toks.flatMap expandToken) ∧
    (∀ net p x, p ≤ 30 →
      (x ∈ cidrHosts net p ↔ net < x ∧ x < net + (2 ^ (32 - p) - 1))) ∧
    expandToken "192.168.1.0/30" = ["192.168.1.1", "192.168.1.2"] ∧
    (∀ a b x, x ∈ rangeHosts a b ↔ a ≤ x ∧ x ≤ b) ∧
    expandToken "10.0.0.1-10.0.0.3" = ["10.0.0.1", "10.0.0.2", "10.0.0.3"] ∧
    (∀ tok, strHasChar tok '/' = false → strHasChar tok '-' = false →
      expandToken tok = [tok]) ∧
    (∀ tok, strHasChar tok '/' = true → parseCIDRTok tok = none →
      expandToken tok = []) ∧
    (∀ tok, strHasChar tok '/' = false → strHasChar tok '-' = true →
      parseRangeTok tok = none → expandToken tok = []) := by
  refine ⟨?_, ?_, by decide, ?_, by decide, ?_, ?_, ?_⟩
  · intro toks
    exact foldl_append_eq_flatMap expandToken toks []
  · intro net p x hp
    have h32 : p ≠ 32 := by omega
    have h31 : p ≠ 31 := by omega
    simp only [cidrHosts, h32, if_false, h31, List.mem_map, List.mem_range]
    constructor
    · rintro ⟨i, hi, rfl⟩
      have hsz : 4 ≤ 2 ^ (32 - p) := by
        have h2 : 2 ≤ 32 - p := by omega
        calc (4 : Nat) = 2 ^ 2 := rfl
        _ ≤ 2 ^ (32 - p) := Nat.pow_le_pow_right (by norm_num) h2
      omega
    · rintro ⟨h1, h2⟩
      exact ⟨x - net - 1, by omega, by omega⟩
  · intro a b x
    simp only [rangeHosts, List.mem_map, List.mem_range]
    constructor
    · rintro ⟨i, hi, rfl⟩
      omega
    · rintro ⟨h1, h2⟩
      exact ⟨x - a, by omega, by omega⟩
  · intro tok h1 h2
    simp [expandToken, h1, h2]
  · intro tok h1 h2
    simp [expandToken, h1, h2]
  · intro tok h1 h2 h3
    simp [expandToken, h1, h2, h3]

/-- Witness for C7: the host `.1` of `192.168.1.0/30` lies strictly between
network and broadcast, and a bare address token expands to itself. -/
theorem C7_ip_range_expansion_witness :
    (3232235777 ∈ cidrHosts 3232235776 30 ↔
      (3232235776 < 3232235777 ∧ 3232235777 < 3232235776 + (2 ^ (32 - 30) - 1))) ∧
    expandToken "10.9.8.7" = ["10.9.8.7"] :=
  ⟨C7_ip_range_expansion.2.1 3232235776 30 3232235777 (by decide),
   C7_ip_range_expansion.2.2.2.2.2.1 "10.9.8.7" (by decide) (by decide)⟩

/-- C8 counterexample: "for every payload" fails — on a non-empty list
headed by a dict but containing a non-dict element, the HTML rendering
inside the pdf branch raises `AttributeError` (`row.get` on a non-dict), so
`format_output(..., "pdf")` raises and writes nothing instead of returning
an `.html` path. -/
theorem C8_pdf_counterexample :
    ¬ ∃ writes ret, format_output c8_mixed "pdf" "report" "output" = .ok (writes, ret) := by
  rintro ⟨w, r, h⟩
  rw [show format_output c8_mixed "pdf" "report" "output" =
      .error (.attributeError "object has no attribute get") from rfl] at h
  exact Except.noConfusion h

/-- C8 amended: for every payload whose HTML rendering succeeds, requesting
format "pdf" writes exactly the HTML rendering at the `.html` path and
returns that path (no `.pdf` file is produced); an unsupported format such
as "xml" (in any case) fails with `ValueError` and writes nothing. -/
theorem C8_format_dispatch (data : Payload) :
    (∀ td, htmlTemplateData data = .ok td →
      format_output data "pdf" "report" "output" =
        .ok ([⟨"output/report.html", .htmlC td⟩], "output/report.html")) ∧
    format_output data "xml" "report" "output" =
      .error (.valueError "Unsupported format type: xml") ∧
    format_output data "XML" "report" "output" =
      .error (.valueError "Unsupported format type: XML") := by
  refine ⟨?_, rfl, rfl⟩
  intro td htd
  have hd : format_output data "pdf" "report" "output" =
      format_html_file data "output/report.html" := rfl
  rw [hd]
  simp only [format_html_file, htd]

/-- Witness for C8 at a concrete report payload: the pdf request writes the
HTML rendering and returns the `.html` path. -/
theorem C8_format_dispatch_witness :
    format_output c8_good "pdf" "report" "output" =
      .ok ([⟨"output/report.html", .htmlC c8_td⟩], "output/report.html") :=
  (C8_format_dispatch c8_good).1 c8_td rfl

/-- Every device record one community's SNMP processing accepts is marked
reachable with discovery method "SNMP". -/
theorem snmp_process_community_fields (ip c : String) (r : SnmpReply) (d : DeviceInfo)
    (h : snmp_process_community ip c r = some d) :
    d.reachable = true ∧ d.discovery_method = "SNMP" := by
  simp only [snmp_process_community] at h
  split at h
  · exact absurd h (by simp)
  · split at h
    · obtain rfl := Option.some.inj h
      exact ⟨rfl, rfl⟩
    · exact absurd h (by simp)

/-- Every device record `snmp_discovery` returns is marked reachable with
discovery method "SNMP". -/
theorem snmp_discovery_fields (ip : String) (cs : List String)
    (oracle : String → Option SnmpReply) (d : DeviceInfo)
    (h : snmp_discovery ip cs oracle = some d) :
    d.reachable = true ∧ d.discovery_method = "SNMP" := by
  unfold snmp_discovery at h
  induction cs with
  | nil => exact absurd h (by simp)
  | cons c rest ih =>
    rw [List.findSome?_cons] at h
    cases hx : ((oracle c).bind (snmp_process_community ip c)) with
    | some d' =>
      rw [hx] at h
      obtain rfl := Option.some.inj h
      obtain ⟨rep, _, hproc⟩ := Option.bind_eq_some.mp hx
      exact snmp_process_community_fields ip c rep d' hproc
    | none =>
      rw [hx] at h
      exact ih h

/-- Every device record `ssh_discovery` returns is marked reachable with
discovery method "SSH". -/
theorem ssh_discovery_fields (ip : String) (env : SshEnv) (d : DeviceInfo)
    (h : ssh_discovery ip env = some d) :
    d.reachable = true ∧ d.discovery_method = "SSH" := by
  simp only [ssh_discovery] at h
  split at h
  · exact absurd h (by simp)
  · split at h
    · exact absurd h (by simp)
    · split at h
      · exact absurd h (by simp)
      · split at h
        · exact absurd h (by simp)
        · obtain rfl := Option.some.inj h
          constructor
          · split <;> split <;> rfl
          · split <;> split <;> rfl

/-- C9: every device record `discover_single_device` returns is reachable,
carries the probe's round-trip time and the (non-empty) current timestamp as
last_seen, and was discovered via SNMP or SSH; an address whose TCP probe to
port 22 fails always yields no record. -/
theorem C9_discover_single_device (env : DiscoveryEnv) (ip : String)
    (cs : List String) (hnow : env.now_iso ≠ "") :
    (∀ d, discover_single_device env ip cs = some d →
      d.reachable = true ∧ d.last_seen ≠ "" ∧ d.response_time = env.response_time ∧
        (d.discovery_method = "SNMP" ∨ d.discovery_method = "SSH")) ∧
    (env.ssh_probe_ok = false → discover_single_device env ip cs = none) := by
  constructor
  · intro d h
    unfold discover_single_device at h
    by_cases hpr : env.ssh_probe_ok = false
    · rw [if_pos hpr] at h
      exact absurd h (by simp)
    · rw [if_neg hpr] at h
      cases hs : (if scan_ports env 161 then snmp_discovery ip cs env.snmp_oracle else none) with
      | some d0 =>
        simp only [hs, Option.some.injEq] at h
        subst h
        have hsn : snmp_discovery ip cs env.snmp_oracle = some d0 := by
          by_cases hop : scan_ports env 161
          · rw [if_pos hop] at hs
            exact hs
          · rw [if_neg hop] at hs
            exact absurd hs (by simp)
        obtain ⟨hr, hm⟩ := snmp_discovery_fields ip cs env.snmp_oracle d0 hsn
        exact ⟨hr, hnow, rfl, Or.inl hm⟩
      | none =>
        simp only [hs] at h
        by_cases h22 : scan_ports env 22
        · rw [if_pos h22] at h
          obtain ⟨d0, hd0, rfl⟩ := Option.map_eq_some'.mp h
          obtain ⟨hr, hm⟩ := ssh_discovery_fields ip env.ssh_env d0 hd0
          exact ⟨hr, hnow, rfl, Or.inr hm⟩
        · rw [if_neg h22] at h
          exact absurd h (by simp)
  · intro hpr
    unfold discover_single_device
    rw [if_pos hpr]

/-- Witness for C9 in a concrete environment answering SNMP: the returned
record is reachable, timestamped, carries the probe RTT and was found via
SNMP or SSH. -/
theorem C9_discover_single_device_witness :
    ∃ d, discover_single_device c9_env "10.0.0.5" ["public"] = some d ∧
      d.reachable = true ∧ d.last_seen ≠ "" ∧ d.response_time = c9_env.response_time ∧
      (d.discovery_method = "SNMP" ∨ d.discovery_method = "SSH") :=
  ⟨_, rfl, (C9_discover_single_device c9_env "10.0.0.5" ["public"] (by decide)).1 _ rfl⟩

end Netmon
